import Mathlib

/-!
# Verification of the cgf-secure-url-service specification

Shallow embedding, in Lean 4, of the request-serving core of the
`Choreogrifi/cgf-secure-url-service` repository:

* `app/middleware/trace_middleware.py` — `TraceMiddleware.dispatch`
* `app/main.py` — the two registered exception handlers
* `app/api/endpoints/gcs_url_endpoint.py` — `generate_signed_url`
* `app/core/config.py` — `get_setings` and the settings profile classes
* `app/utils/logging_config.py` — `StructuredLogFormatter.format`

Python `ContextVar` set/reset is modelled by explicit context passing,
exceptions by sum types, and the cloud SDK (an external collaborator per the
spec) by an environment record describing what each SDK call would return.
Machine randomness (trace/span ids) and the wall clock enter as parameters.
-/

/-! ## Trace context and responses (trace_middleware.py, logging_config.py)

`trace_id_var` and `span_id_var` are two `ContextVar[str | None]` cells with
default `None`.  A snapshot of both cells is a `TraceCtx`; `ContextVar.set`
returns a token holding the previous value and `ContextVar.reset` restores
exactly that value, so set/reset pairs are explicit in the model. -/

structure TraceCtx where
  traceId : Option String
  spanId : Option String
deriving DecidableEq

/-- The default context: both `ContextVar`s hold `None`. -/
def TraceCtx.empty : TraceCtx := { traceId := none, spanId := none }

/-- A response as the middleware sees it: a status code plus the headers the
application code itself attaches (framework-supplied headers such as
`content-type` are outside the model). -/
structure Response where
  status : Nat
  headers : List (String × String)
deriving DecidableEq

/-- What `call_next` does for one request: either the inner application
produces a response (this includes error responses built by the
`HTTPException` handler, which runs inside the application stack), or an
exception propagates out of the chain. -/
inductive HandlerOutcome where
  | ok (r : Response)
  | exn (e : String)
deriving DecidableEq

/-- Result of `TraceMiddleware.dispatch`: the outcome seen by the caller of
the middleware (a returned response, or the re-raised exception) together
with the state of the two `ContextVar`s when `dispatch` has finished. -/
structure DispatchResult where
  outcome : HandlerOutcome
  ctxAfter : TraceCtx
deriving DecidableEq

/-- `f"{process_time:.4f}"`: seconds rendered with four decimal places.
Elapsed time is modelled in ticks of 10⁻⁴ s (already rounded, as the format
specifier would). -/
def fmt4 (ticks : Nat) : String :=
  let frac := ticks % 10000
  let fracStr := toString frac
  let padded := String.mk (List.replicate (4 - fracStr.length) '0') ++ fracStr
  toString (ticks / 10000) ++ "." ++ padded

/-- `TraceMiddleware.dispatch` (trace_middleware.py lines 36–98).

Parameters: `pre` is the value of the two `ContextVar`s on entry, `traceId`
and `spanId` the freshly generated identifiers (`str(uuid.uuid4())` and the
hex of 8 random bytes), `ticks` the elapsed time measured by
`time.perf_counter`, and `handler` what `call_next` does.

The body sets both `ContextVar`s (keeping the reset tokens), delegates to
`call_next`, and then:
* on an exception, logs it and re-raises (`raise e`); the `finally: pass`
  block does nothing, and the `reset` calls at lines 95–96 are never
  reached, so the `ContextVar`s keep the per-request values;
* on a response, attaches the `X-Process-Time`, `X-Trace-ID` and
  `X-Span-ID` headers, then resets both `ContextVar`s via the saved tokens,
  restoring the entry values. -/
def dispatch (pre : TraceCtx) (traceId spanId : String) (ticks : Nat)
    (handler : HandlerOutcome) : DispatchResult :=
  let inRequest : TraceCtx := { traceId := some traceId, spanId := some spanId }
  match handler with
  | .exn e =>
      { outcome := .exn e, ctxAfter := inRequest }
  | .ok r =>
      let r' : Response :=
        { r with headers := r.headers ++
            [("X-Process-Time", fmt4 ticks),
             ("X-Trace-ID", traceId),
             ("X-Span-ID", spanId)] }
      { outcome := .ok r', ctxAfter := pre }

/-! ## Error bodies (models/error_model.py, main.py) -/

/-- `ErrorResponse` (error_model.py): `code`, `message`, optional `details`
map.  Detail values relevant here are strings. -/
structure ErrorBody where
  code : String
  message : String
  details : Option (List (String × String))
deriving DecidableEq

/-- Body built by `http_exception_handler` (main.py lines 71–81) when
`exc.detail` is a string, as it is on every path of the signed-URL
endpoint. -/
def httpExceptionBody (detail : String) : ErrorBody :=
  { code := "HTTP_ERROR", message := detail, details := none }

/-- Body built by `generic_exception_handler` (main.py lines 83–95) for an
exception of type `excType` with message `excMsg` raised while serving
`path`. -/
def genericExceptionBody (excType excMsg path : String) : ErrorBody :=
  { code := "UNEXPECTED_ERROR"
    message := "An unexpected server error occurred. Please try again later."
    details := some [("error_type", excType), ("message", excMsg),
                     ("request_path", path)] }

/-- The response produced by `generic_exception_handler`: status 500, no
application-attached headers (`JSONResponse(status_code=500, content=...)`). -/
def genericExceptionResponse : Response :=
  { status := 500, headers := [] }

/-- One request through the outer stack around the trace middleware.  The
catch-all `Exception` handler registered on the app runs in the outermost
(server-error) layer, outside `TraceMiddleware`: an exception re-raised by
`dispatch` is converted there into `genericExceptionResponse`, which does
not pass through the middleware's header-stamping code. -/
def handleRequestApp (pre : TraceCtx) (traceId spanId : String) (ticks : Nat)
    (handler : HandlerOutcome) : Response :=
  match (dispatch pre traceId spanId ticks handler).outcome with
  | .ok r => r
  | .exn _ => genericExceptionResponse

/-! ## Settings object (core/config.py field set) -/

/-- The fields of a resolved settings object (the `BaseAppSettings`
hierarchy).  `GCP_PROJECT : Option String` because `BootstrapSettings`
declares a `None` default and `get_setings` may observe an unset
environment variable. -/
structure Settings where
  PROJECT_NAME : String
  ENVIRONMENT : String
  LOG_LEVEL : String
  API_V1_STR : String
  DEBUG : Bool
  GCS_BUCKET_NAME : String
  GCP_PROJECT : Option String
deriving DecidableEq

/-! ## Signed-URL endpoint (api/endpoints/gcs_url_endpoint.py)

The Google SDK is the external collaborator the spec scopes out; a `GcsEnv`
records what each of its calls would do during one request:
`google.auth.default`, `Credentials.refresh`, `Blob.exists` and
`Blob.generate_signed_url`.  Exceptions raised by an SDK call are the
`Except.error`/`some` cases and carry the exception's message text. -/

inductive CredKind where
  | computeEngine
  | other
deriving DecidableEq

/-- The slice of a `google.auth` credentials object the endpoint reads:
its runtime class (`isinstance(credentials, ComputeEngineCredentials)`),
its `valid` flag, its `valid` flag as it would be after one `refresh`,
its `service_account_email` (the empty string models a missing or falsy
attribute), and its `token`. -/
structure Credentials where
  kind : CredKind
  valid : Bool
  validAfterRefresh : Bool
  service_account_email : String
  token : Option String
deriving DecidableEq

/-- `credentials.refresh(auth_request)` mutates the credentials in place;
modelled as updating the `valid` flag to the post-refresh value. -/
def Credentials.refresh (c : Credentials) : Credentials :=
  { c with valid := c.validAfterRefresh }

/-- Behaviour of the cloud SDK during one request:
* `defaultResult`: what `google.auth.default(scopes=scopes)` returns —
  `.error msg` is a raised `DefaultCredentialsError`, `.ok (creds, proj)`
  the credentials/project pair;
* `refreshError`: `some msg` if `credentials.refresh` raises;
* `existsResult`: what `blob.exists()` returns, `.error msg` if it raises;
* `signResult`: what `blob.generate_signed_url(...)` returns, `.error msg`
  if it raises. -/
structure GcsEnv where
  defaultResult : Except String (Credentials × Option String)
  refreshError : Option String
  existsResult : Except String Bool
  signResult : Except String String

/-- Counts of the cloud operations performed during one call. -/
structure Effects where
  defaultCalls : Nat
  refreshCalls : Nat
  existsCalls : Nat
  signCalls : Nat
deriving DecidableEq

def Effects.none : Effects :=
  { defaultCalls := 0, refreshCalls := 0, existsCalls := 0, signCalls := 0 }

/-- Outcome of the endpoint function: the success body
`{"signed_url": url}` or a raised `HTTPException(status_code, detail)`.
Every failure path of the endpoint leaves it as an `HTTPException` (the
final `except Exception` re-raises `HTTPException`s and wraps anything
else in one). -/
inductive HandlerResult where
  | success (signed_url : String)
  | httpError (status : Nat) (detail : String)
deriving DecidableEq

/-- Detail strings of the endpoint's `HTTPException`s (gcs_url_endpoint.py). -/
def msgInvalidCreds : String :=
  "Invalid Google Cloud credentials. Please check your Cloud Run service account configuration and permissions."

def msgNoIdentity : String :=
  "Could not determine the service account identity for URL signing. Check Cloud Run service account configuration."

def msgNotFound : String :=
  "File not found in Google Cloud Storage."

def msgAuthFailed : String :=
  "Authentication to Google Cloud failed. Please check your Cloud Run service account permissions."

def msgGeneric : String :=
  "Internal server error: Could not generate signed URL. Please check server logs."

/-- `generate_signed_url` (gcs_url_endpoint.py lines 16–125), after query
validation has accepted `filename` and `expires_in`.

Takes the current process-wide `settings` object and returns, besides the
result, the settings object as it is after the call (line 37 assigns
`settings.GCP_PROJECT` from the `default()` return value) and the counts of
cloud operations performed.  Control flow of the `try` body:

1. `default(scopes=...)`; a `DefaultCredentialsError` is caught by the
   dedicated `except` clause → 500 `msgAuthFailed`.
2. On success the project from `default()` is stored into
   `settings.GCP_PROJECT`.
3. If `not credentials.valid`: one `refresh`; a raising refresh falls to
   the generic `except Exception` → 500 `msgGeneric`; if still not valid →
   `HTTPException(500, msgInvalidCreds)`.
4. Signing identity: only `ComputeEngineCredentials` with a truthy
   `service_account_email` yield one; otherwise
   `HTTPException(500, msgNoIdentity)`.
5. `blob.exists()`: raising → 500 `msgGeneric`; `False` →
   `HTTPException(404, msgNotFound)`.
6. `blob.generate_signed_url(...)`: raising → 500 `msgGeneric`; else
   return the URL.

`HTTPException`s raised in the body pass unchanged through the final
`except Exception` clause (`isinstance(e, HTTPException)` → re-raise). -/
def generate_signed_url (settings : Settings) (env : GcsEnv)
    (filename : String) (expires_in : Nat) :
    HandlerResult × Settings × Effects :=
  match env.defaultResult with
  | .error _ =>
      (.httpError 500 msgAuthFailed, settings,
       { Effects.none with defaultCalls := 1 })
  | .ok (credentials0, project) =>
      let settings := { settings with GCP_PROJECT := project }
      if credentials0.valid then
        generate_signed_url.afterCredentials settings env credentials0
          { Effects.none with defaultCalls := 1 }
      else
        match env.refreshError with
        | some _ =>
            (.httpError 500 msgGeneric, settings,
             { Effects.none with defaultCalls := 1, refreshCalls := 1 })
        | none =>
            let credentials := credentials0.refresh
            if credentials.valid then
              generate_signed_url.afterCredentials settings env credentials
                { Effects.none with defaultCalls := 1, refreshCalls := 1 }
            else
              (.httpError 500 msgInvalidCreds, settings,
               { Effects.none with defaultCalls := 1, refreshCalls := 1 })
where
  /-- Steps 4–6 above: identity resolution, existence check, signing. -/
  afterCredentials (settings : Settings) (env : GcsEnv)
      (credentials : Credentials) (eff : Effects) :
      HandlerResult × Settings × Effects :=
    let signing_service_account_email : Option String :=
      if credentials.kind = CredKind.computeEngine ∧
          credentials.service_account_email ≠ "" then
        some credentials.service_account_email
      else
        none
    match signing_service_account_email with
    | none => (.httpError 500 msgNoIdentity, settings, eff)
    | some _ =>
        match env.existsResult with
        | .error _ =>
            (.httpError 500 msgGeneric, settings,
             { eff with existsCalls := eff.existsCalls + 1 })
        | .ok false =>
            (.httpError 404 msgNotFound, settings,
             { eff with existsCalls := eff.existsCalls + 1 })
        | .ok true =>
            match env.signResult with
            | .error _ =>
                (.httpError 500 msgGeneric, settings,
                 { eff with
                   existsCalls := eff.existsCalls + 1
                   signCalls := eff.signCalls + 1 })
            | .ok url =>
                (.success url, settings,
                 { eff with
                   existsCalls := eff.existsCalls + 1
                   signCalls := eff.signCalls + 1 })

/-! ## Route-level query validation (FastAPI `Query` declarations)

`filename: str = Query(...)` is required; `expires_in: int = Query(300,
ge=20, le=3600)` defaults to 300 and is bounds-checked by the framework
before the endpoint body runs; violations produce a 422 validation error
and the endpoint (hence any cloud call) is never entered. -/

inductive RouteResult where
  | validationError
  | handled (r : HandlerResult)
deriving DecidableEq

/-- Validation of the `expires_in` query parameter: absent → default 300;
present → accepted iff `20 ≤ v ∧ v ≤ 3600`. -/
def validateExpiresIn : Option Int → Option Int
  | Option.none => some 300
  | some v => if 20 ≤ v ∧ v ≤ 3600 then some v else none

/-- The `GET /<prefix>/url/` route: query validation, then the endpoint.
`filename = none` models an absent required parameter. -/
def route (settings : Settings) (env : GcsEnv)
    (filename : Option String) (expires_in : Option Int) :
    RouteResult × Settings × Effects :=
  match filename, validateExpiresIn expires_in with
  | Option.none, _ => (.validationError, settings, Effects.none)
  | some _, Option.none => (.validationError, settings, Effects.none)
  | some f, some v =>
      let (r, s, eff) := generate_signed_url settings env f v.toNat
      (.handled r, s, eff)

/-! ## Settings resolution (core/config.py lines 9–130)

The profile classes and `get_setings`.  The process environment at
resolution time (after the `load_dotenv` calls have populated it) is an
`OsEnv`; only the variables the settings fields read are modelled, the
remaining field-named variables are taken to be unset. -/

inductive Profile where
  | local_
  | development
  | test
  | staging
  | production
deriving DecidableEq

/-- Field defaults declared on each profile class (inheriting
`BaseAppSettings` for `PROJECT_NAME` and `API_V1_STR`). -/
def classDefaults : Profile → Settings
  | .local_ =>
      { PROJECT_NAME := "Abacus Signed URL Generator", ENVIRONMENT := "local"
        LOG_LEVEL := "DEBUG", API_V1_STR := "/v1", DEBUG := true
        GCS_BUCKET_NAME := "abacus-claims"
        GCP_PROJECT := some "grpit-cds-sandpit-dev" }
  | .development =>
      { PROJECT_NAME := "Abacus Signed URL Generator", ENVIRONMENT := "development"
        LOG_LEVEL := "INFO", API_V1_STR := "/v1", DEBUG := false
        GCS_BUCKET_NAME := "abacus-claims-dev", GCP_PROJECT := some "" }
  | .test =>
      { PROJECT_NAME := "Abacus Signed URL Generator", ENVIRONMENT := "test"
        LOG_LEVEL := "WARNING", API_V1_STR := "/v1", DEBUG := false
        GCS_BUCKET_NAME := "", GCP_PROJECT := some "" }
  | .staging =>
      { PROJECT_NAME := "Abacus Signed URL Generator", ENVIRONMENT := "staging"
        LOG_LEVEL := "INFO", API_V1_STR := "/v1", DEBUG := false
        GCS_BUCKET_NAME := "", GCP_PROJECT := some "" }
  | .production =>
      { PROJECT_NAME := "Abacus Signed URL Generator", ENVIRONMENT := "production"
        LOG_LEVEL := "WARNING", API_V1_STR := "/v1", DEBUG := false
        GCS_BUCKET_NAME := "", GCP_PROJECT := some "" }

/-- `_environment_settings_map` (config.py lines 77–83). -/
def environment_settings_map (name : String) : Option Profile :=
  if name = "local" then some .local_
  else if name = "development" then some .development
  else if name = "test" then some .test
  else if name = "staging" then some .staging
  else if name = "production" then some .production
  else none

/-- Process environment variables read during settings resolution
(`None` = unset). -/
structure OsEnv where
  ENVIRONMENT : Option String
  GCP_PROJECT : Option String
  LOG_LEVEL : Option String
  GCS_BUCKET_NAME : Option String
deriving DecidableEq

/-- `str.lower()` on the environment name (character-wise lowercasing; the
profile names involved are ASCII). -/
def pyLower (s : String) : String :=
  String.mk (s.data.map Char.toLower)

/-- `os.environ.get("ENVIRONMENT", "local").lower()` followed by the map
lookup with the fallback to `LocalSettings` (config.py lines 110–117). -/
def chooseProfile (environment : Option String) : Profile :=
  let current_environment_name := pyLower (environment.getD "local")
  (environment_settings_map current_environment_name).getD Profile.local_

/-- `settings_class()`: pydantic-settings instantiation.  Each field takes
the like-named environment variable when it is set and the class's field
default otherwise (pydantic v2 source precedence: init arguments,
environment, dotenv, secrets, field default; no init arguments are
passed). -/
def instantiateSettings (p : Profile) (env : OsEnv) : Settings :=
  let d := classDefaults p
  { d with
    ENVIRONMENT := env.ENVIRONMENT.getD d.ENVIRONMENT
    LOG_LEVEL := env.LOG_LEVEL.getD d.LOG_LEVEL
    GCS_BUCKET_NAME := env.GCS_BUCKET_NAME.getD d.GCS_BUCKET_NAME
    GCP_PROJECT :=
      match env.GCP_PROJECT with
      | some v => some v
      | none => d.GCP_PROJECT }

/-- `get_setings` (config.py lines 99–130; the source spells it without
the double t).  The line
`settings_class.GCP_PROJECT = os.environ.get("GCP_PROJECT")` assigns a
plain class attribute after class creation; pydantic collects field
defaults at class-definition time into `model_fields` and its value
resolution never consults class attributes, so the assignment is kept in
the model (as `classAttrGCP`) but has no influence on the instantiated
settings.  Instantiation of every profile class succeeds (all fields have
string/bool defaults), so the `sys.exit` branch is unreachable and the
function totally returns a `Settings`. -/
def get_setings (env : OsEnv) : Settings :=
  let settings_class := chooseProfile env.ENVIRONMENT
  let classAttrGCP := env.GCP_PROJECT
  let _ := classAttrGCP
  instantiateSettings settings_class env

/-! ## Structured log formatter (utils/logging_config.py lines 12–74) -/

/-- The slice of a `logging.LogRecord` the formatter reads.  `createdMs`
is `record.created` in whole milliseconds (the formatter renders with
`timespec=\x7bmilliseconds\x7d`, so sub-millisecond digits are dropped
before rendering). -/
structure LogRecord where
  levelname : String
  message : String
  createdMs : Nat
  pathname : String
  lineno : Nat
  funcName : String
  name : String
  excText : Option String
  stackText : Option String
deriving DecidableEq

/-- `severity_map.get(record.levelname, 'DEFAULT')` (logging_config.py
lines 31–39; the `NOTSET` key maps to `DEFAULT`, as does any other
unlisted level name). -/
def severityOf (levelname : String) : String :=
  if levelname = "CRITICAL" then "CRITICAL"
  else if levelname = "ERROR" then "ERROR"
  else if levelname = "WARNING" then "WARNING"
  else if levelname = "INFO" then "INFO"
  else if levelname = "DEBUG" then "DEBUG"
  else "DEFAULT"

/-- Left-pad a number with zeros to width `w`. -/
def pad (w n : Nat) : String :=
  let s := toString n
  String.mk (List.replicate (w - s.length) '0') ++ s

/-- Proleptic-Gregorian date of a day count relative to 1970-01-01
(Howard Hinnant's `civil_from_days`): year, month, day. -/
def civilFromDays (z0 : Int) : Int × Nat × Nat :=
  let z := z0 + 719468
  let era := Int.fdiv z 146097
  let doe := (z - era * 146097).toNat
  let yoe := (doe - doe / 1460 + doe / 36524 - doe / 146096) / 365
  let y : Int := (yoe : Int) + era * 400
  let doy := doe - (365 * yoe + yoe / 4 - yoe / 100)
  let mp := (5 * doy + 2) / 153
  let d := doy - (153 * mp + 2) / 5 + 1
  let m := if mp < 10 then mp + 3 else mp - 9
  (if m ≤ 2 then y + 1 else y, m, d)

/-- `datetime.isoformat(timespec='milliseconds')` on the naive datetime
denoting `ms` milliseconds from 1970-01-01T00:00:00:
`YYYY-MM-DDTHH:MM:SS.mmm`. -/
def isoOfMs (ms : Int) : String :=
  let day : Int := 86400000
  let days := Int.fdiv ms day
  let msod := (ms - days * day).toNat
  let (y, m, d) := civilFromDays days
  pad 4 y.toNat ++ "-" ++ pad 2 m ++ "-" ++ pad 2 d ++ "T" ++
    pad 2 (msod / 3600000) ++ ":" ++ pad 2 (msod / 60000 % 60) ++ ":" ++
    pad 2 (msod / 1000 % 60) ++ "." ++ pad 3 (msod % 1000)

/-- Python truthiness of an optional string: `None` and `""` are falsy. -/
def strTruthy : Option String → Bool
  | Option.none => false
  | some s => !s.isEmpty

/-- The JSON object built by `StructuredLogFormatter.format` (field order
aside).  `trace` is the `logging.googleapis.com/trace` field, `spanId` the
`logging.googleapis.com/spanId` field, `sourceLocation` and `labels` the
corresponding `logging.googleapis.com` objects. -/
structure LogEntry where
  severity : String
  message : String
  timestamp : String
  sourceLocation : String × Nat × String
  labels : List (String × String)
  trace : Option String
  spanId : Option String
  exception : Option String
  stack_trace : Option String
deriving DecidableEq

/-- `StructuredLogFormatter.format` (logging_config.py lines 21–74).

`tzOffsetMinutes` is the offset of the process's local timezone from UTC
at the record's creation instant: `datetime.fromtimestamp(record.created)`
(line 45) converts the POSIX timestamp to a NAIVE LOCAL datetime, i.e. it
renders the instant `createdMs + tzOffsetMinutes·60000`; the code then
appends the literal `"Z"`.  `ctx` is the value of the two `ContextVar`s at
format time. -/
def StructuredLogFormatter.format (project_id : Option String)
    (tzOffsetMinutes : Int) (ctx : TraceCtx) (record : LogRecord) : LogEntry :=
  let trace_id := ctx.traceId
  let span_id := ctx.spanId
  { severity := severityOf record.levelname
    message := record.message
    timestamp := isoOfMs ((record.createdMs : Int) + tzOffsetMinutes * 60000) ++ "Z"
    sourceLocation := (record.pathname, record.lineno, record.funcName)
    labels := [("python_logger", record.name)]
    trace :=
      if strTruthy trace_id && strTruthy project_id then
        some ("projects/" ++ project_id.getD "" ++ "/traces/" ++ trace_id.getD "")
      else
        none
    spanId := if strTruthy span_id then span_id else none
    exception := record.excText
    stack_trace := record.stackText }

/-- The timestamp the spec describes for a record created `createdMs`
milliseconds after the epoch: the creation time expressed in UTC, ISO-8601
with millisecond precision and an explicit Z suffix.  (Reference rendering
for comparison with the formatter's output; follows the spec's words, not
the code.) -/
def specTimestampUTC (createdMs : Nat) : String :=
  isoOfMs (createdMs : Int) ++ "Z"

/-! ## Concrete instances used in closed statements -/

/-- A concrete resolved settings object (local profile with project `p1`). -/
def settingsP1 : Settings :=
  { PROJECT_NAME := "Abacus Signed URL Generator", ENVIRONMENT := "local"
    LOG_LEVEL := "DEBUG", API_V1_STR := "/v1", DEBUG := true
    GCS_BUCKET_NAME := "abacus-claims", GCP_PROJECT := some "p1" }

/-- Concrete valid compute-engine credentials. -/
def credsOkCE : Credentials :=
  { kind := CredKind.computeEngine, valid := true, validAfterRefresh := true
    service_account_email := "sa@example.com", token := some "tok" }

/-- A concrete SDK environment in which every call succeeds and
`default()` reports project `p2`. -/
def envHappy : GcsEnv :=
  { defaultResult := Except.ok (credsOkCE, some "p2")
    refreshError := none
    existsResult := Except.ok true
    signResult := Except.ok "https://signed.example/u" }

/-! ## Helper lemmas about the endpoint -/

/-- The identity/existence/signing stage never touches the settings
object. -/
theorem afterCredentials_settings_eq (s : Settings) (env : GcsEnv)
    (c : Credentials) (eff : Effects) :
    (generate_signed_url.afterCredentials s env c eff).2.1 = s := by
  unfold generate_signed_url.afterCredentials
  repeat' split
  all_goals rfl

/-- The identity/existence/signing stage performs no credential refresh. -/
theorem afterCredentials_refreshCalls_eq (s : Settings) (env : GcsEnv)
    (c : Credentials) (eff : Effects) :
    (generate_signed_url.afterCredentials s env c eff).2.2.refreshCalls
      = eff.refreshCalls := by
  unfold generate_signed_url.afterCredentials
  repeat' split
  all_goals rfl

/-- Every `HTTPException` detail produced by the identity/existence/signing
stage is one of three fixed strings. -/
theorem afterCredentials_detail_mem (s : Settings) (env : GcsEnv)
    (c : Credentials) (eff : Effects) (st : Nat) (d : String)
    (h : (generate_signed_url.afterCredentials s env c eff).1
        = HandlerResult.httpError st d) :
    d = msgNoIdentity ∨ d = msgGeneric ∨ d = msgNotFound := by
  unfold generate_signed_url.afterCredentials at h
  repeat' split at h
  all_goals simp_all

/-- Every `HTTPException` detail produced by the endpoint, whatever the SDK
does, is one of five fixed strings; in particular no exception text carried
in the `GcsEnv` ever reaches the detail. -/
theorem generate_signed_url_detail_mem (s : Settings) (env : GcsEnv)
    (f : String) (e : Nat) (st : Nat) (d : String)
    (h : (generate_signed_url s env f e).1 = HandlerResult.httpError st d) :
    d = msgAuthFailed ∨ d = msgInvalidCreds ∨ d = msgNoIdentity ∨
    d = msgNotFound ∨ d = msgGeneric := by
  rcases env with ⟨dr, re, er, sr⟩
  rcases dr with m | ⟨c, proj⟩
  · injection h with h1 h2
    exact Or.inl h2.symm
  · obtain ⟨k, cv, cva, em, tok⟩ := c
    cases cv
    · cases re with
      | some m2 =>
          injection h with h1 h2
          exact Or.inr (Or.inr (Or.inr (Or.inr h2.symm)))
      | none =>
          cases cva
          · injection h with h1 h2
            exact Or.inr (Or.inl h2.symm)
          · rcases afterCredentials_detail_mem _ _ _ _ _ _ h with h1 | h1 | h1
            · exact Or.inr (Or.inr (Or.inl h1))
            · exact Or.inr (Or.inr (Or.inr (Or.inr h1)))
            · exact Or.inr (Or.inr (Or.inr (Or.inl h1)))
    · rcases afterCredentials_detail_mem _ _ _ _ _ _ h with h1 | h1 | h1
      · exact Or.inr (Or.inr (Or.inl h1))
      · exact Or.inr (Or.inr (Or.inr (Or.inr h1)))
      · exact Or.inr (Or.inr (Or.inr (Or.inl h1)))

/-! ## C1 -/

/-- C1: the claim states that on every exit path of
`TraceMiddleware.dispatch` the ambient trace-id/span-id context equals its
pre-request value.  The code violates this: on the exception path
(`raise e`, with only `finally: pass` in between) the reset calls at
trace_middleware.py lines 95–96 are never executed, so after `dispatch`
re-raises, the two `ContextVar`s still hold this request's identifiers
instead of the pre-request value — contradicting point 8 of the
middleware's own docstring.  Evaluation at the failing input: a request
whose downstream handler raises, entered with an empty pre-request
context. -/
theorem c1_context_not_reset_on_exception :
    (dispatch TraceCtx.empty "3f2b6a1c-trace" "aabbccdd00112233" 42
        (HandlerOutcome.exn "boom")).ctxAfter
      = { traceId := some "3f2b6a1c-trace", spanId := some "aabbccdd00112233" } ∧
    (dispatch TraceCtx.empty "3f2b6a1c-trace" "aabbccdd00112233" 42
        (HandlerOutcome.exn "boom")).ctxAfter ≠ TraceCtx.empty :=
  ⟨rfl, by decide⟩

/-! ## C2 -/

/-- C2 counterexample: the claim states the client-visible body never
contains the internal exception's type or message.  For an unexpected
exception (here a `ValueError` with message `boom`) caught by
`generic_exception_handler`, the response body's `details` object contains
exactly that type name and message string, so the claim as stated is
false. -/
theorem c2_generic_handler_leaks_exception_detail :
    (genericExceptionBody "ValueError" "boom" "/v1/url/").details
      = some [("error_type", "ValueError"), ("message", "boom"),
              ("request_path", "/v1/url/")] ∧
    (genericExceptionBody "ValueError" "boom" "/v1/url/").details ≠ none :=
  ⟨rfl, by decide⟩

/-- C2 amended: failures handled inside `generate_signed_url` itself are
sanitized — every `HTTPException` it raises carries one of five fixed
generic detail strings (never text of the underlying SDK exception), and
the body the `HTTPException` handler builds from it has only `code` and
`message`, with no `details`.  However, an exception that reaches the
outermost `generic_exception_handler` yields a body whose `details` object
does contain the exception's type and message alongside the generic code
and message. -/
theorem c2_handler_failures_sanitized (s : Settings) (env : GcsEnv)
    (f : String) (e : Nat) (st : Nat) (d : String) (t m p : String)
    (h : (generate_signed_url s env f e).1 = HandlerResult.httpError st d) :
    httpExceptionBody d = { code := "HTTP_ERROR", message := d, details := none } ∧
    (d = msgAuthFailed ∨ d = msgInvalidCreds ∨ d = msgNoIdentity ∨
     d = msgNotFound ∨ d = msgGeneric) ∧
    (genericExceptionBody t m p).details
      = some [("error_type", t), ("message", m), ("request_path", p)] :=
  ⟨rfl, generate_signed_url_detail_mem s env f e st d h, rfl⟩

/-- C2 witness: the amended statement instantiated at a concrete call in
which `default()` raises `DefaultCredentialsError`. -/
theorem c2_handler_failures_sanitized_witness :
    httpExceptionBody msgAuthFailed
        = { code := "HTTP_ERROR", message := msgAuthFailed, details := none } ∧
    (msgAuthFailed = msgAuthFailed ∨ msgAuthFailed = msgInvalidCreds ∨
     msgAuthFailed = msgNoIdentity ∨ msgAuthFailed = msgNotFound ∨
     msgAuthFailed = msgGeneric) ∧
    (genericExceptionBody "ValueError" "boom" "/v1/url/").details
      = some [("error_type", "ValueError"), ("message", "boom"),
              ("request_path", "/v1/url/")] :=
  c2_handler_failures_sanitized settingsP1
    { defaultResult := Except.error "no creds", refreshError := none
      existsResult := Except.ok true, signResult := Except.ok "u" }
    "file.txt" 300 500 msgAuthFailed "ValueError" "boom" "/v1/url/" rfl

/-! ## C3 -/

/-- C3 counterexample: the claim states no request-serving operation
mutates the settings object.  A concrete successful call of the handler
(settings loaded with `GCP_PROJECT = p1`, `default()` reporting project
`p2`) leaves the process-wide settings with `GCP_PROJECT = p2`: line 37 of
gcs_url_endpoint.py assigns `settings.GCP_PROJECT` on every call. -/
theorem c3_handler_mutates_gcp_project :
    ((generate_signed_url settingsP1 envHappy "file.txt" 300).2.1).GCP_PROJECT
      = some "p2" ∧
    (generate_signed_url settingsP1 envHappy "file.txt" 300).2.1 ≠ settingsP1 :=
  ⟨rfl, by decide⟩

/-- C3 amended: whenever credential acquisition succeeds and reports
project `p`, the call overwrites exactly the settings field `GCP_PROJECT`
with `p` and leaves every other field unchanged; when credential
acquisition raises, the settings object is untouched. -/
theorem c3_settings_frame (s : Settings) (c : Credentials) (p : Option String)
    (re : Option String) (er : Except String Bool) (sr : Except String String)
    (f : String) (e : Nat) :
    (generate_signed_url s
        { defaultResult := Except.ok (c, p), refreshError := re
          existsResult := er, signResult := sr } f e).2.1
      = { s with GCP_PROJECT := p } ∧
    ∀ m : String,
      (generate_signed_url s
          { defaultResult := Except.error m, refreshError := re
            existsResult := er, signResult := sr } f e).2.1 = s := by
  obtain ⟨k, cv, cva, em, tok⟩ := c
  constructor
  · cases cv
    · cases re with
      | some m => rfl
      | none =>
          cases cva
          · rfl
          · exact afterCredentials_settings_eq _ _ _ _
    · exact afterCredentials_settings_eq _ _ _ _
  · intro m
    rfl

/-! ## C4 -/

/-- C4: the claim states the formatted timestamp is the record's creation
time in UTC with a Z suffix.  The code calls
`datetime.fromtimestamp(record.created)`, which renders LOCAL wall-clock
time, and appends a literal Z — contradicting the comment on that very
line (logging_config.py line 45).  Failing input: a record created at the
epoch (`record.created = 0`) in a process whose local timezone is UTC+1:
the emitted timestamp is `1970-01-01T01:00:00.000Z`, which as a UTC
timestamp denotes an instant one hour after the actual creation time
`1970-01-01T00:00:00.000Z`. -/
theorem c4_timestamp_is_local_time_with_z :
    (StructuredLogFormatter.format (some "proj") 60 TraceCtx.empty
        { levelname := "INFO", message := "m", createdMs := 0
          pathname := "app/x.py", lineno := 12, funcName := "g"
          name := "root", excText := none, stackText := none }).timestamp
      = "1970-01-01T01:00:00.000Z" ∧
    (StructuredLogFormatter.format (some "proj") 60 TraceCtx.empty
        { levelname := "INFO", message := "m", createdMs := 0
          pathname := "app/x.py", lineno := 12, funcName := "g"
          name := "root", excText := none, stackText := none }).timestamp
      ≠ specTimestampUTC 0 :=
  ⟨rfl, by decide⟩

/-! ## C5 -/

/-- C5: an `expires_in` strictly below 20 or strictly above 3600 is
rejected by query validation with a client error before the endpoint runs,
so no cloud operation (credential acquisition, existence check or signing)
is performed and the settings are untouched; 20 and 3600 themselves pass
validation, and an omitted `expires_in` defaults to 300. -/
theorem c5_expiry_bounds (s : Settings) (env : GcsEnv) (f : String) (v : Int)
    (h : v < 20 ∨ 3600 < v) :
    route s env (some f) (some v) = (RouteResult.validationError, s, Effects.none) ∧
    validateExpiresIn (some 20) = some 20 ∧
    validateExpiresIn (some 3600) = some 3600 ∧
    validateExpiresIn Option.none = some 300 := by
  refine ⟨?_, rfl, rfl, rfl⟩
  have hnot : ¬ (20 ≤ v ∧ v ≤ 3600) := by
    rcases h with h | h <;> omega
  have hv : validateExpiresIn (some v) = Option.none := by
    unfold validateExpiresIn
    exact if_neg hnot
  unfold route
  rw [hv]

/-- C5 witness: the bound theorem instantiated at `expires_in = 19`. -/
theorem c5_expiry_bounds_witness :
    route settingsP1 envHappy (some "file.txt") (some 19)
      = (RouteResult.validationError, settingsP1, Effects.none) ∧
    validateExpiresIn (some 20) = some 20 ∧
    validateExpiresIn (some 3600) = some 3600 ∧
    validateExpiresIn Option.none = some 300 :=
  c5_expiry_bounds settingsP1 envHappy "file.txt" 19 (Or.inl (by decide))

/-! ## C6 -/

/-- C6: whenever the acquired credentials are not valid, exactly one
refresh attempt is made (whatever the refresh outcome); and if the
credentials are still invalid after that single refresh, the handler fails
with `HTTPException(500, msgInvalidCreds)`, the signing capability is
never invoked, and still only the one refresh was performed. -/
theorem c6_single_refresh_then_500 (s : Settings) (k : CredKind) (va : Bool)
    (em : String) (tok : Option String) (p : Option String)
    (re : Option String) (er : Except String Bool) (sr : Except String String)
    (f : String) (e : Nat) :
    (generate_signed_url s
        { defaultResult := Except.ok
            ({ kind := k, valid := false, validAfterRefresh := va
               service_account_email := em, token := tok }, p)
          refreshError := re, existsResult := er, signResult := sr }
        f e).2.2.refreshCalls = 1 ∧
    (generate_signed_url s
        { defaultResult := Except.ok
            ({ kind := k, valid := false, validAfterRefresh := false
               service_account_email := em, token := tok }, p)
          refreshError := none, existsResult := er, signResult := sr } f e).1
      = HandlerResult.httpError 500 msgInvalidCreds ∧
    (generate_signed_url s
        { defaultResult := Except.ok
            ({ kind := k, valid := false, validAfterRefresh := false
               service_account_email := em, token := tok }, p)
          refreshError := none, existsResult := er, signResult := sr }
        f e).2.2.signCalls = 0 := by
  refine ⟨?_, rfl, rfl⟩
  cases re with
  | some m => rfl
  | none =>
      cases va
      · rfl
      · exact afterCredentials_refreshCalls_eq _ _ _ _

/-! ## C7 -/

/-- C7: with valid compute-engine credentials carrying a non-empty service
account email, if the object does not exist in the bucket
(`blob.exists()` returns `False`), the handler raises
`HTTPException(404, msgNotFound)`, the existence check is invoked exactly
once, and the signing capability is never invoked. -/
theorem c7_not_found_404 (s : Settings) (va : Bool) (em : String)
    (tok : Option String) (p : Option String) (re : Option String)
    (sr : Except String String) (f : String) (e : Nat) (hem : em ≠ "") :
    generate_signed_url s
        { defaultResult := Except.ok
            ({ kind := CredKind.computeEngine, valid := true, validAfterRefresh := va
               service_account_email := em, token := tok }, p)
          refreshError := re, existsResult := Except.ok false, signResult := sr }
        f e
      = (HandlerResult.httpError 404 msgNotFound, { s with GCP_PROJECT := p },
         { defaultCalls := 1, refreshCalls := 0, existsCalls := 1, signCalls := 0 }) := by
  unfold generate_signed_url generate_signed_url.afterCredentials
  simp [hem, Effects.none]

/-- C7 witness: the not-found theorem instantiated at concrete
credentials and a concrete missing object. -/
theorem c7_not_found_404_witness :
    generate_signed_url settingsP1
        { defaultResult := Except.ok
            ({ kind := CredKind.computeEngine, valid := true, validAfterRefresh := true
               service_account_email := "sa@example.com", token := some "tok" },
             some "p2")
          refreshError := none, existsResult := Except.ok false
          signResult := Except.ok "https://signed.example/u" }
        "file.txt" 300
      = (HandlerResult.httpError 404 msgNotFound,
         { settingsP1 with GCP_PROJECT := some "p2" },
         { defaultCalls := 1, refreshCalls := 0, existsCalls := 1, signCalls := 0 }) :=
  c7_not_found_404 settingsP1 true "sa@example.com" (some "tok") (some "p2") none
    (Except.ok "https://signed.example/u") "file.txt" 300 (by decide)

/-! ## C8 -/

/-- C8 counterexample: the claim states every response carries the
`X-Trace-ID`, `X-Span-ID` and `X-Process-Time` headers, including on
unhandled failures.  For a request whose handler chain raises, the
middleware re-raises without stamping headers, and the response the
outermost generic handler then produces carries none of them. -/
theorem c8_unhandled_failure_lacks_headers :
    (handleRequestApp TraceCtx.empty "3f2b6a1c-trace" "aabbccdd00112233" 5
        (HandlerOutcome.exn "boom")).headers = [] ∧
    ("X-Trace-ID", "3f2b6a1c-trace") ∉
      (handleRequestApp TraceCtx.empty "3f2b6a1c-trace" "aabbccdd00112233" 5
        (HandlerOutcome.exn "boom")).headers :=
  ⟨rfl, by decide⟩

/-- C8 amended: whenever `call_next` returns a response (successful
requests, and failures converted to error responses by handlers running
inside the application stack), the middleware attaches all three headers
with the request's trace id, span id, and the elapsed time formatted to
four decimal places; but a request whose handler chain raises an exception
past the middleware is answered by the outermost responder with a response
carrying none of those headers. -/
theorem c8_headers_on_returned_responses (pre : TraceCtx) (tid sid e : String)
    (t : Nat) (r : Response) :
    (∃ r', (dispatch pre tid sid t (HandlerOutcome.ok r)).outcome
          = HandlerOutcome.ok r' ∧
        r'.status = r.status ∧
        ("X-Trace-ID", tid) ∈ r'.headers ∧
        ("X-Span-ID", sid) ∈ r'.headers ∧
        ("X-Process-Time", fmt4 t) ∈ r'.headers) ∧
    handleRequestApp pre tid sid t (HandlerOutcome.exn e) = genericExceptionResponse := by
  refine ⟨⟨_, rfl, rfl, ?_, ?_, ?_⟩, rfl⟩ <;> simp

/-! ## C9 -/

/-- C9: an environment name whose lowercasing is not a key of the settings
map resolves to the `LocalSettings` profile, and `get_setings` returns
successfully — the result is exactly the local profile instantiated
against the process environment. -/
theorem c9_unknown_environment_local_fallback (env : OsEnv) (name : String)
    (h : environment_settings_map (pyLower name) = none) :
    chooseProfile (some name) = Profile.local_ ∧
    get_setings { env with ENVIRONMENT := some name }
      = instantiateSettings Profile.local_ { env with ENVIRONMENT := some name } := by
  have hc : chooseProfile (some name) = Profile.local_ := by
    unfold chooseProfile
    simp [h]
  refine ⟨hc, ?_⟩
  unfold get_setings
  have he : ({ env with ENVIRONMENT := some name } : OsEnv).ENVIRONMENT = some name := rfl
  rw [he, hc]

/-- C9 witness: the fallback theorem instantiated at the unrecognized
environment name `qa`. -/
theorem c9_unknown_environment_local_fallback_witness :
    chooseProfile (some "qa") = Profile.local_ ∧
    get_setings { ENVIRONMENT := some "qa", GCP_PROJECT := none
                  LOG_LEVEL := none, GCS_BUCKET_NAME := none }
      = instantiateSettings Profile.local_
          { ENVIRONMENT := some "qa", GCP_PROJECT := none
            LOG_LEVEL := none, GCS_BUCKET_NAME := none } :=
  c9_unknown_environment_local_fallback
    { ENVIRONMENT := none, GCP_PROJECT := none
      LOG_LEVEL := none, GCS_BUCKET_NAME := none } "qa" (by decide)

/-! ## C10 -/

/-- C10 counterexample: the claim states the resolved `GCP_PROJECT` equals
the `GCP_PROJECT` environment variable (`None` when unset) and the profile
classes' built-in defaults are never observable.  With the local profile
selected and the variable unset, `get_setings` resolves `GCP_PROJECT` to
the built-in class default `grpit-cds-sandpit-dev` — not `None` — because
the pre-instantiation class-attribute assignment does not change the
pydantic field default. -/
theorem c10_builtin_default_observable :
    (get_setings { ENVIRONMENT := some "local", GCP_PROJECT := none
                   LOG_LEVEL := none, GCS_BUCKET_NAME := none }).GCP_PROJECT
      = some "grpit-cds-sandpit-dev" ∧
    (get_setings { ENVIRONMENT := some "local", GCP_PROJECT := none
                   LOG_LEVEL := none, GCS_BUCKET_NAME := none }).GCP_PROJECT
      ≠ none :=
  ⟨rfl, by decide⟩

/-- C10 amended: when the `GCP_PROJECT` environment variable is set, the
resolved settings carry its value (pydantic reads it as an environment
source); when it is unset, the resolved `GCP_PROJECT` is the selected
profile class's built-in field default, since the class-attribute
overwrite performed before instantiation is invisible to pydantic field
resolution. -/
theorem c10_gcp_project_resolution (eenv lg gb : Option String) (v : String) :
    (get_setings { ENVIRONMENT := eenv, GCP_PROJECT := some v
                   LOG_LEVEL := lg, GCS_BUCKET_NAME := gb }).GCP_PROJECT = some v ∧
    (get_setings { ENVIRONMENT := eenv, GCP_PROJECT := none
                   LOG_LEVEL := lg, GCS_BUCKET_NAME := gb }).GCP_PROJECT
      = (classDefaults (chooseProfile eenv)).GCP_PROJECT :=
  ⟨rfl, rfl⟩
